import Mathlib

/-!
Shallow embedding of scripts/release.py, the release-automation script of the
adaptive_pipeline repository.

Modelling choices:
- Each shell command string built by the script is modelled as a constructor of
  the inductive type `Cmd`, carrying exactly the data the script interpolates
  into the string at that construction site (version, date, file paths).
- The outside world is an `Env`: an assignment of a `CmdOutcome` to every
  command (a completed process with return code, stdout and stderr, or an
  exception raised while launching it), a filesystem predicate used by the
  `Path.exists` checks, and the current date string used by step 2.
- Every function that prints or runs commands returns its result together with
  the ordered list of observable `Event`s it produces: the STEP banners printed
  at the top of each step, dry-run prints, actual command executions, and
  informational prints (skip notices, missing-zip listings, phase banners).
- `sys.exit` inside validation and `parser.error` are modelled by the
  `InitResult.exited` and `MainResult.usageError` constructors; `parser.error`
  exits the process with a non-zero (usage) code before the automation object
  exists, so neither carries a trace: structurally no command can have run.
- Python `str.isdigit` is modelled for ASCII digit characters, and
  `str.strip` strips the ASCII whitespace characters Python strips.
-/

namespace Release

/-- Outcome the outside world gives one launched command: the process completed
with a return code, stdout and stderr, or an exception was raised while
launching or running it (the `except Exception` branch of `_run_command`). -/
inductive CmdOutcome where
  | completed (returncode : Int) (stdout stderr : String)
  | raises (msg : String)
  deriving DecidableEq, Repr

/-- The shell commands built by release.py, one constructor per construction
site, carrying the data interpolated into the command string there. -/
inductive Cmd where
  | cargoInstallCross
  | crossVersion
  | unsetCrossNoDocker
  | exportContainerEngine
  | sedMainCargoVersion (version : String)
  | sedMainCargoDomainDep (version : String)
  | sedMainCargoBootstrapDep (version : String)
  | sedDomainCargoVersion (version : String)
  | sedBootstrapCargoVersion (version : String)
  | sedDocFile (filePath pattern replacement : String)
  | findUpdateDocsVersion (version : String)
  | sedRoadmapVersion (version : String)
  | gitStatusPorcelain (pathspec : String)
  | gitAddCommitPush (message : String)
  | gitAddCommitPushChangelog
  | gitTagAndPush (version : String)
  | makeBuildAllPlatforms
  | zipPlatform (sourceDir extension binaryName zipName : String)
  | ghReleaseCreate (version : String) (zipPaths : List String)
  deriving DecidableEq, Repr

/-- Observable events, in program order: a STEP banner printed at the top of a
step, a dry-run print of description, command and working directory, an actual
command execution, or an informational print. -/
inductive Event where
  | header (banner : String)
  | dryRunPrint (description : String) (cmd : Cmd) (workingDir : String)
  | executed (description : String) (cmd : Cmd)
  | info (msg : String)
  deriving DecidableEq, Repr

/-- The fields of a constructed ReleaseAutomation object: version, repository
path and the dry-run flag, set once in init and read-only afterwards. -/
structure Config where
  version : String
  repoPath : String
  dryRun : Bool
  deriving DecidableEq, Repr

/-- The outside world: an outcome for every command, the filesystem existence
predicate backing the Path.exists checks, and the current date string that
datetime.now produces in step 2. -/
structure Env where
  outcome : Cmd → CmdOutcome
  fileExists : String → Bool
  dateStr : String

/-- Parsed command-line arguments of release.py. -/
structure Args where
  version : String
  repopath : String
  prep : Bool
  build : Bool
  publish : Bool
  all : Bool
  dryRun : Bool
  deriving DecidableEq, Repr

/-- Result of constructing the automation object: either the validated object,
or the process exited with the given code during validation (before any
command could run). -/
inductive InitResult where
  | ok (cfg : Config)
  | exited (code : Nat)
  deriving DecidableEq, Repr

/-- Result of the main entry point: a usage error from argparse (the process
exits with a non-zero usage code before the automation object exists), a
validation failure exit, or a finished run with an exit code and the trace of
events produced by the requested phases. -/
inductive MainResult where
  | usageError
  | initFailure (code : Nat)
  | finished (exitCode : Nat) (trace : List Event)
  deriving DecidableEq, Repr

/-- The whitespace characters Python str.strip removes (ASCII range). -/
def pyIsSpace (c : Char) : Bool :=
  c == ' ' || c == '\t' || c == '\n' || c == '\x0d' || c == '\x0b' || c == '\x0c'

/-- Python str.strip: remove leading and trailing whitespace. -/
def pyStrip (s : String) : String :=
  String.mk (((s.toList.dropWhile pyIsSpace).reverse.dropWhile pyIsSpace).reverse)

/-- Python str.split with a one-character separator, over the character list:
splitting the empty string yields one empty part, and every separator
occurrence starts a new part. -/
def splitOnChar (sep : Char) : List Char → List (List Char)
  | [] => [[]]
  | c :: rest =>
      let r := splitOnChar sep rest
      if c == sep then [] :: r
      else
        match r with
        | [] => [[c]]
        | g :: gs => (c :: g) :: gs

/-- Python str.isdigit for an ASCII segment: nonempty and all digits. -/
def pyIsDigit (p : List Char) : Bool :=
  p.length != 0 && p.all Char.isDigit

/-- The check performed by ReleaseAutomation validate version: splitting the
version string on dots yields exactly three parts, each a digit string. -/
def validVersion (version : String) : Bool :=
  let parts := splitOnChar '.' version.toList
  parts.length == 3 && parts.all pyIsDigit

/-- Path join with a forward slash, modelling Path division. -/
def joinPath (a b : String) : String := a ++ "/" ++ b

/-- ReleaseAutomation init: store the fields, then validate the version format
and the repository path (it must exist and contain a .git entry), exiting the
process with code 1 at the first failed check. No command is run here. -/
def mkAutomation (env : Env) (version repoPath : String) (dryRun : Bool) : InitResult :=
  if !validVersion version then InitResult.exited 1
  else if !env.fileExists repoPath then InitResult.exited 1
  else if !env.fileExists (joinPath repoPath ".git") then InitResult.exited 1
  else InitResult.ok ⟨version, repoPath, dryRun⟩

/-- The fixed cross-compilation platform list of ReleaseAutomation. -/
def PLATFORMS : List String :=
  ["aarch64-apple-darwin",
   "aarch64-unknown-linux-gnu",
   "x86_64-apple-darwin",
   "x86_64-pc-windows-gnu",
   "x86_64-unknown-linux-gnu"]

/-- PLATFORM_EXTENSIONS lookup with default empty string. -/
def platform_extension (platform : String) : String :=
  if platform == "x86_64-pc-windows-gnu" then ".exe" else ""

/-- ReleaseAutomation platform to name: platform triple to display name. -/
def platform_to_name (platform : String) : String :=
  if platform == "aarch64-apple-darwin" then "macos-aarch64"
  else if platform == "aarch64-unknown-linux-gnu" then "linux-aarch64"
  else if platform == "x86_64-apple-darwin" then "macos-x86_64"
  else if platform == "x86_64-pc-windows-gnu" then "windows-x86_64"
  else if platform == "x86_64-unknown-linux-gnu" then "linux-x86_64"
  else platform

/-- Name of the versioned binary placed next to the built binary (get binary
path, file-name part). -/
def binary_file_name (cfg : Config) (platform : String) : String :=
  "adaptive_pipeline-v" ++ cfg.version ++ "-" ++ platform_to_name platform
    ++ platform_extension platform

/-- Name of the zip archive for a platform (get zip path, file-name part). -/
def zip_file_name (cfg : Config) (platform : String) : String :=
  "adaptive_pipeline-v" ++ cfg.version ++ "-" ++ platform_to_name platform ++ ".zip"

/-- ReleaseAutomation get zip path: repo/target/platform/release/zipName. -/
def get_zip_path (cfg : Config) (platform : String) : String :=
  cfg.repoPath ++ "/target/" ++ platform ++ "/release/" ++ zip_file_name cfg platform

/-- ReleaseAutomation get binary path: repo/target/platform/release/name. -/
def get_binary_path (cfg : Config) (platform : String) : String :=
  cfg.repoPath ++ "/target/" ++ platform ++ "/release/" ++ binary_file_name cfg platform

/-- ReleaseAutomation run command. In dry-run mode it only prints the
description, the command and the working directory (always the repository
path, since no call site passes an explicit cwd) and reports success with
empty output. Otherwise the command runs: a nonzero return code yields
(false, stderr), success yields (true, stdout), and an exception is caught
and yields (false, message) - never a propagated exception. -/
def run_command (env : Env) (cfg : Config) (cmd : Cmd) (description : String) :
    (Bool × String) × List Event :=
  if cfg.dryRun then
    ((true, ""), [Event.dryRunPrint description cmd cfg.repoPath])
  else
    match env.outcome cmd with
    | CmdOutcome.completed rc out err =>
        if rc != 0 then ((false, err), [Event.executed description cmd])
        else ((true, out), [Event.executed description cmd])
    | CmdOutcome.raises msg => ((false, msg), [Event.executed description cmd])

/-- Run a list of (command, description) pairs in order, stopping at the first
failure (the for-loops of steps 1 and 2). -/
def runCmdSeq (env : Env) (cfg : Config) : List (Cmd × String) → Bool × List Event
  | [] => (true, [])
  | (cmd, desc) :: rest =>
      let r := run_command env cfg cmd desc
      if r.1.1 then
        let r2 := runCmdSeq env cfg rest
        (r2.1, r.2 ++ r2.2)
      else (false, r.2)

/-- The command list of step 1 (prepare environment). -/
def step1List : List (Cmd × String) :=
  [(Cmd.cargoInstallCross, "Install/update cross compiler"),
   (Cmd.crossVersion, "Verify cross installation"),
   (Cmd.unsetCrossNoDocker, "Unset CROSS_NO_DOCKER"),
   (Cmd.exportContainerEngine, "Set container engine to Docker")]

/-- Step 1: prepare build environment. -/
def step_1_prepare_environment (env : Env) (cfg : Config) : Bool × List Event :=
  let r := runCmdSeq env cfg step1List
  (r.1, Event.header "STEP 1: Prepare Environment" :: r.2)

/-- The command list of step 2 (set version), in source order: the five
Cargo.toml sed commands, the two documentation files with their Version and
Date replacements, the find-over-docs command, and the roadmap command. -/
def step2List (version dateStr : String) : List (Cmd × String) :=
  [(Cmd.sedMainCargoVersion version,
      "Update adaptive_pipeline/Cargo.toml package version"),
   (Cmd.sedMainCargoDomainDep version,
      "Update adaptive_pipeline/Cargo.toml domain dependency"),
   (Cmd.sedMainCargoBootstrapDep version,
      "Update adaptive_pipeline/Cargo.toml bootstrap dependency"),
   (Cmd.sedDomainCargoVersion version, "Update adaptive_pipeline_domain/Cargo.toml"),
   (Cmd.sedBootstrapCargoVersion version, "Update adaptive_pipeline_bootstrap/Cargo.toml"),
   (Cmd.sedDocFile "docs/src/introduction.md" "^\\*\\*Version:\\*\\* .*"
      ("**Version:** " ++ version), "Update docs/src/introduction.md"),
   (Cmd.sedDocFile "docs/src/introduction.md" "^\\*\\*Date:\\*\\* .*"
      ("**Date:** " ++ dateStr), "Update docs/src/introduction.md"),
   (Cmd.sedDocFile "adaptive_pipeline/docs/src/introduction.md" "^\\*\\*Version:\\*\\* .*"
      ("**Version:** " ++ version), "Update adaptive_pipeline/docs/src/introduction.md"),
   (Cmd.sedDocFile "adaptive_pipeline/docs/src/introduction.md" "^\\*\\*Date:\\*\\* .*"
      ("**Date:** " ++ dateStr), "Update adaptive_pipeline/docs/src/introduction.md"),
   (Cmd.findUpdateDocsVersion version, "Update all adaptive_pipeline/docs/src/**/*.md files"),
   (Cmd.sedRoadmapVersion version, "Update docs/roadmap.md")]

/-- Step 2: set the version throughout the codebase. -/
def step_2_set_version (env : Env) (cfg : Config) : Bool × List Event :=
  let r := runCmdSeq env cfg (step2List cfg.version env.dateStr)
  (r.1, Event.header ("STEP 2: Set Version to v" ++ cfg.version) :: r.2)

/-- Step 3: commit version changes. First query git status porcelain; on
query failure fail; on empty (stripped) output skip with success; otherwise
stage, commit and push. -/
def step_3_commit_changes (env : Env) (cfg : Config) (message : String) : Bool × List Event :=
  let r := run_command env cfg (Cmd.gitStatusPorcelain "") "Check for uncommitted changes"
  let evs := Event.header "STEP 3: Commit Version Changes" :: r.2
  if !r.1.1 then (false, evs)
  else if pyStrip r.1.2 == "" then
    (true, evs ++ [Event.info "No changes to commit, skipping"])
  else
    let r2 := run_command env cfg (Cmd.gitAddCommitPush message) "Commit and push version changes"
    (r2.1.1, evs ++ r2.2)

/-- Step 4: update CHANGELOG.md. The git-cliff invocation is commented out in
the source; the step only prints a skip notice and reports success. -/
def step_4_update_changelog : Bool × List Event :=
  (true, [Event.header "STEP 4: Update CHANGELOG.md",
          Event.info "git-cliff step skipped (using manual CHANGELOG)"])

/-- Step 5: commit CHANGELOG.md, with the same skip-if-unchanged structure as
step 3 but a pathspec restricted to CHANGELOG.md. -/
def step_5_commit_changelog (env : Env) (cfg : Config) : Bool × List Event :=
  let r := run_command env cfg (Cmd.gitStatusPorcelain "CHANGELOG.md")
      "Check for CHANGELOG.md changes"
  let evs := Event.header "STEP 5: Commit CHANGELOG.md" :: r.2
  if !r.1.1 then (false, evs)
  else if pyStrip r.1.2 == "" then
    (true, evs ++ [Event.info "No changes to CHANGELOG.md, skipping"])
  else
    let r2 := run_command env cfg Cmd.gitAddCommitPushChangelog "Commit and push CHANGELOG.md"
    (r2.1.1, evs ++ r2.2)

/-- Step 6: create and push the annotated git tag. -/
def step_6_create_tag (env : Env) (cfg : Config) : Bool × List Event :=
  let r := run_command env cfg (Cmd.gitTagAndPush cfg.version)
      ("Create and push tag v" ++ cfg.version)
  (r.1.1, Event.header ("STEP 6: Create Git Tag v" ++ cfg.version) :: r.2)

/-- Step 7: build multi-platform binaries via make. -/
def step_7_build_multiplatform (env : Env) (cfg : Config) : Bool × List Event :=
  let r := run_command env cfg Cmd.makeBuildAllPlatforms "Build all platform binaries"
  (r.1.1, Event.header "STEP 7: Build Multi-Platform Binaries" :: r.2)

/-- The per-platform compression loop of step 8, stopping at the first failed
zip command. -/
def compressLoop (env : Env) (cfg : Config) : List String → Bool × List Event
  | [] => (true, [])
  | platform :: rest =>
      let ext := platform_extension platform
      let sourceDir := cfg.repoPath ++ "/target/" ++ platform ++ "/release"
      let r := run_command env cfg
        (Cmd.zipPlatform sourceDir ext (binary_file_name cfg platform) (zip_file_name cfg platform))
        ("Create " ++ zip_file_name cfg platform)
      if r.1.1 then
        let r2 := compressLoop env cfg rest
        (r2.1, r.2 ++ r2.2)
      else (false, r.2)

/-- Step 8: compress binaries. After the loop, and only outside dry-run mode,
verify every expected zip exists; on any missing archive print every missing
path and fail. -/
def step_8_compress_binaries (env : Env) (cfg : Config) : Bool × List Event :=
  let r := compressLoop env cfg PLATFORMS
  let evs := Event.header "STEP 8: Compress Binaries" :: r.2
  if !r.1 then (false, evs)
  else if cfg.dryRun then (true, evs)
  else
    let missing := (PLATFORMS.filter (fun p => !env.fileExists (get_zip_path cfg p))).map
      (fun p => get_zip_path cfg p)
    if missing.isEmpty then (true, evs)
    else (false, evs ++ missing.map Event.info)

/-- Step 9: publish the GitHub release with every platform zip attached. -/
def step_9_publish_github (env : Env) (cfg : Config) : Bool × List Event :=
  let zips := PLATFORMS.map (fun p => get_zip_path cfg p)
  let r := run_command env cfg (Cmd.ghReleaseCreate cfg.version zips)
      ("Publish GitHub release v" ++ cfg.version)
  (r.1.1, Event.header "STEP 9: Publish to GitHub" :: r.2)

/-- The step-sequencing loop shared by prep and build phases: print the
starting banner, run the step, and stop at the first failure, printing the
phase failure line. -/
def runPhaseSteps (failLabel : String) :
    Nat → Nat → List ((Unit → Bool × List Event) × String) → Bool × List Event
  | _, _, [] => (true, [])
  | i, total, (f, name) :: rest =>
      let r := f ()
      let evs := Event.info (">>> Starting Step " ++ toString i ++ "/" ++ toString total
        ++ ": " ++ name) :: r.2
      if r.1 then
        let r2 := runPhaseSteps failLabel (i + 1) total rest
        (r2.1, evs ++ r2.2)
      else (false, evs ++ [Event.info (failLabel ++ name)])

/-- The ordered step list of the prep phase (steps 1 to 6). -/
def prepSteps (env : Env) (cfg : Config) : List ((Unit → Bool × List Event) × String) :=
  [(fun _ => step_1_prepare_environment env cfg, "Prepare environment"),
   (fun _ => step_2_set_version env cfg, "Set version"),
   (fun _ => step_3_commit_changes env cfg ("chore: bump version to v" ++ cfg.version),
      "Commit changes"),
   (fun _ => step_4_update_changelog, "Update CHANGELOG"),
   (fun _ => step_5_commit_changelog env cfg, "Commit CHANGELOG"),
   (fun _ => step_6_create_tag env cfg, "Create git tag")]

/-- Prep phase: run steps 1 to 6 in order, halting on the first failure. -/
def prep_release (env : Env) (cfg : Config) : Bool × List Event :=
  let steps := prepSteps env cfg
  let r := runPhaseSteps "PREP FAILED at: " 1 steps.length steps
  if r.1 then
    (true, Event.info "PHASE: PREP RELEASE (Steps 1-6)" :: r.2
      ++ [Event.info "PREP RELEASE COMPLETED SUCCESSFULLY"])
  else (false, Event.info "PHASE: PREP RELEASE (Steps 1-6)" :: r.2)

/-- The ordered step list of the build phase (steps 7 and 8). -/
def buildSteps (env : Env) (cfg : Config) : List ((Unit → Bool × List Event) × String) :=
  [(fun _ => step_7_build_multiplatform env cfg, "Build binaries"),
   (fun _ => step_8_compress_binaries env cfg, "Compress binaries")]

/-- Build phase: run steps 7 and 8 in order, halting on the first failure. -/
def build_release (env : Env) (cfg : Config) : Bool × List Event :=
  let steps := buildSteps env cfg
  let r := runPhaseSteps "BUILD FAILED at: " 1 steps.length steps
  if r.1 then
    (true, Event.info "PHASE: BUILD RELEASE (Steps 7-8)" :: r.2
      ++ [Event.info "BUILD RELEASE COMPLETED SUCCESSFULLY"])
  else (false, Event.info "PHASE: BUILD RELEASE (Steps 7-8)" :: r.2)

/-- Publish phase: run step 9. -/
def publish_release (env : Env) (cfg : Config) : Bool × List Event :=
  let r := step_9_publish_github env cfg
  if r.1 then
    (true, Event.info "PHASE: PUBLISH RELEASE (Step 9)" :: r.2
      ++ [Event.info "PUBLISH RELEASE COMPLETED SUCCESSFULLY"])
  else (false, Event.info "PHASE: PUBLISH RELEASE (Step 9)" :: r.2
    ++ [Event.info "PUBLISH FAILED"])

/-- Run all: prep, then build, then publish, each gated on the previous
phase succeeding. -/
def run_all (env : Env) (cfg : Config) : Bool × List Event :=
  let banner := Event.info ("FULL RELEASE AUTOMATION: v" ++ cfg.version)
  let r1 := prep_release env cfg
  if !r1.1 then (false, banner :: r1.2)
  else
    let r2 := build_release env cfg
    if !r2.1 then (false, banner :: r1.2 ++ r2.2)
    else
      let r3 := publish_release env cfg
      if !r3.1 then (false, banner :: r1.2 ++ r2.2 ++ r3.2)
      else
        (true, banner :: r1.2 ++ r2.2 ++ r3.2
          ++ [Event.info ("RELEASE v" ++ cfg.version ++ " COMPLETED SUCCESSFULLY!")])

/-- The main entry point: argparse requires at least one phase flag, then the
automation object is constructed (validating inputs), then either run all (the
individual phase flags are not consulted) or each requested phase in the fixed
order prep, build, publish, each unconditionally executed and its success
conjoined into the final flag. Exit code 0 on success, 1 otherwise. -/
def main (env : Env) (args : Args) : MainResult :=
  if !(args.prep || args.build || args.publish || args.all) then MainResult.usageError
  else
    match mkAutomation env args.version args.repopath args.dryRun with
    | InitResult.exited code => MainResult.initFailure code
    | InitResult.ok cfg =>
        if args.all then
          let r := run_all env cfg
          MainResult.finished (if r.1 then 0 else 1) r.2
        else
          let rP := if args.prep then prep_release env cfg else (true, [])
          let rB := if args.build then build_release env cfg else (true, [])
          let rPub := if args.publish then publish_release env cfg else (true, [])
          MainResult.finished (if rP.1 && rB.1 && rPub.1 then 0 else 1)
            (rP.2 ++ rB.2 ++ rPub.2)

/-- The command an event carries when it is an actual execution. -/
def executedOf : Event → Option Cmd
  | Event.header _ => none
  | Event.dryRunPrint _ _ _ => none
  | Event.executed _ c => some c
  | Event.info _ => none

/-- The banner an event carries when it is a STEP banner. -/
def headerOf : Event → Option String
  | Event.header s => some s
  | Event.dryRunPrint _ _ _ => none
  | Event.executed _ _ => none
  | Event.info _ => none

/-- The message an event carries when it is an informational print. -/
def infoOf : Event → Option String
  | Event.header _ => none
  | Event.dryRunPrint _ _ _ => none
  | Event.executed _ _ => none
  | Event.info s => some s

/-- The commands actually executed (not dry-run printed) in a trace. -/
def executedCmds (evs : List Event) : List Cmd := evs.filterMap executedOf

/-- The STEP banners printed in a trace, in order. -/
def headerMsgs (evs : List Event) : List String := evs.filterMap headerOf

/-- The informational prints in a trace, in order. -/
def infoMsgs (evs : List Event) : List String := evs.filterMap infoOf

/-- Whether a command outcome counts as success in run command: completed
with return code zero. -/
def outcomeSuccess : CmdOutcome → Bool
  | CmdOutcome.completed rc _ _ => rc == 0
  | CmdOutcome.raises _ => false

/-- The output run command returns for an outcome: stdout on success, stderr
on a nonzero return code, the exception message on an exception. -/
def cmdOutput : CmdOutcome → String
  | CmdOutcome.completed rc out err => if rc != 0 then err else out
  | CmdOutcome.raises msg => msg

/-- Success of every phase the command line requested: with the all flag the
composite run, otherwise the conjunction over the individually requested
phases. -/
def requestedSuccess (env : Env) (args : Args) (cfg : Config) : Bool :=
  if args.all then (run_all env cfg).1
  else (!args.prep || (prep_release env cfg).1)
    && (!args.build || (build_release env cfg).1)
    && (!args.publish || (publish_release env cfg).1)

/-- Sample world where every command completes with return code zero and
empty output and every file exists. -/
def envOk : Env :=
  ⟨fun _ => CmdOutcome.completed 0 "" "", fun _ => true, "January 01, 2026"⟩

/-- Sample world where every command completes with return code one. -/
def envFail : Env :=
  ⟨fun _ => CmdOutcome.completed 1 "" "boom", fun _ => true, "January 01, 2026"⟩

/-- Sample world where launching any command raises an exception. -/
def envRaises : Env :=
  ⟨fun _ => CmdOutcome.raises "spawn failed", fun _ => true, "January 01, 2026"⟩

/-- Sample world where the porcelain status queries report a pending change
and every other command succeeds. -/
def envDirty : Env :=
  ⟨fun c => match c with
    | Cmd.gitStatusPorcelain _ => CmdOutcome.completed 0 " M file\n" ""
    | _ => CmdOutcome.completed 0 "" "",
   fun _ => true, "January 01, 2026"⟩

/-- Sample arguments with no phase flag at all. -/
def argsNoFlags : Args := ⟨"1.2.3", "/repo", false, false, false, false, false⟩

/-- Sample arguments: all phases, dry run. -/
def argsAllDry : Args := ⟨"1.2.3", "/repo", false, false, false, true, true⟩

/-- Sample arguments: the three individual phase flags, no all flag. -/
def argsThreePhases : Args := ⟨"1.2.3", "/repo", true, true, true, false, false⟩

/-- Sample arguments: all flag combined with the individual phase flags. -/
def argsAllPlus : Args := ⟨"1.2.3", "/repo", true, true, true, true, false⟩

/-- The configuration the sample dry-run arguments validate to. -/
def cfgDry : Config := ⟨"1.2.3", "/repo", true⟩

/-- The configuration the sample non-dry-run arguments validate to. -/
def cfgWet : Config := ⟨"1.2.3", "/repo", false⟩

/-- A sample phase step that succeeds producing no events. -/
def stepPass : (Unit → Bool × List Event) × String := (fun _ => (true, []), "pass")

/-- A sample step body that fails producing no events. -/
def stepFailFn : Unit → Bool × List Event := fun _ => (false, [])

/-- Outside dry-run mode, run command executes the command and returns the
success flag and output determined by the outcome. -/
theorem run_command_not_dry (env : Env) (cfg : Config) (h : cfg.dryRun = false)
    (cmd : Cmd) (desc : String) :
    run_command env cfg cmd desc =
      ((outcomeSuccess (env.outcome cmd), cmdOutput (env.outcome cmd)),
       [Event.executed desc cmd]) := by
  unfold run_command
  rw [h]
  cases henv : env.outcome cmd with
  | completed rc out err =>
      by_cases hrc : rc = 0 <;> simp [hrc, outcomeSuccess, cmdOutput]
  | raises msg => simp [outcomeSuccess, cmdOutput]

/-- In dry-run mode, run command only prints and reports success with empty
output. -/
theorem run_command_dry (env : Env) (cfg : Config) (h : cfg.dryRun = true)
    (cmd : Cmd) (desc : String) :
    run_command env cfg cmd desc =
      ((true, ""), [Event.dryRunPrint desc cmd cfg.repoPath]) := by
  simp [run_command, h]

/-- C10: the command runner never propagates an exception: an exception raised
while launching or running the command is caught and reported as a failed
result, with the success flag false and the output set to the error text. The
runner is a total function into result pairs, so a step failure is always a
returned value. -/
theorem c10_runner_catches_exceptions (env : Env) (cfg : Config) (cmd : Cmd)
    (desc msg : String) (hdry : cfg.dryRun = false)
    (hexc : env.outcome cmd = CmdOutcome.raises msg) :
    run_command env cfg cmd desc = ((false, msg), [Event.executed desc cmd]) := by
  simp [run_command, hdry, hexc]

/-- Witness for C10 at a concrete world whose commands raise exceptions. -/
theorem c10_witness :
    run_command envRaises cfgWet Cmd.makeBuildAllPlatforms "Build all platform binaries"
      = ((false, "spawn failed"),
         [Event.executed "Build all platform binaries" Cmd.makeBuildAllPlatforms]) :=
  c10_runner_catches_exceptions envRaises cfgWet Cmd.makeBuildAllPlatforms
    "Build all platform binaries" "spawn failed" rfl rfl

/-- C1: with any phase flag requested, an invalid version string (not exactly
three dot-separated all-numeric segments) or an invalid repository path (not
existing, or lacking the .git metadata directory) makes construction of the
automation fail: the process exits with code 1 during validation, before any
external command is invoked (the init failure result carries no trace). -/
theorem c1_init_validation_fails (env : Env) (args : Args)
    (hflag : (args.prep || args.build || args.publish || args.all) = true)
    (hbad : validVersion args.version = false ∨ env.fileExists args.repopath = false ∨
      env.fileExists (joinPath args.repopath ".git") = false) :
    main env args = MainResult.initFailure 1 := by
  have hmk : mkAutomation env args.version args.repopath args.dryRun = InitResult.exited 1 := by
    unfold mkAutomation
    rcases hbad with h | h | h
    · simp [h]
    · by_cases hv : validVersion args.version <;> simp [hv, h]
    · by_cases hv : validVersion args.version
      · by_cases hr : env.fileExists args.repopath <;> simp [hv, hr, h]
      · simp [hv]
  simp [main, hflag, hmk]

/-- Witness for C1: version 2.0 has two segments, so the run exits 1. -/
theorem c1_witness :
    main envOk ⟨"2.0", "/repo", true, false, false, false, false⟩
      = MainResult.initFailure 1 :=
  c1_init_validation_fails envOk ⟨"2.0", "/repo", true, false, false, false, false⟩
    (by decide) (Or.inl (by decide))

/-- C2: in dry-run mode, every step and every phase reports success and
executes zero external commands (the runner only prints); in particular the
compression step succeeds with its archive-existence verification skipped,
whatever the filesystem holds. -/
theorem c2_dryrun_no_exec (env : Env) (cfg : Config) (message : String)
    (h : cfg.dryRun = true) :
    ((step_1_prepare_environment env cfg).1 = true
      ∧ executedCmds (step_1_prepare_environment env cfg).2 = [])
    ∧ ((step_2_set_version env cfg).1 = true
      ∧ executedCmds (step_2_set_version env cfg).2 = [])
    ∧ ((step_3_commit_changes env cfg message).1 = true
      ∧ executedCmds (step_3_commit_changes env cfg message).2 = [])
    ∧ (step_4_update_changelog.1 = true
      ∧ executedCmds step_4_update_changelog.2 = [])
    ∧ ((step_5_commit_changelog env cfg).1 = true
      ∧ executedCmds (step_5_commit_changelog env cfg).2 = [])
    ∧ ((step_6_create_tag env cfg).1 = true
      ∧ executedCmds (step_6_create_tag env cfg).2 = [])
    ∧ ((step_7_build_multiplatform env cfg).1 = true
      ∧ executedCmds (step_7_build_multiplatform env cfg).2 = [])
    ∧ ((step_8_compress_binaries env cfg).1 = true
      ∧ executedCmds (step_8_compress_binaries env cfg).2 = [])
    ∧ ((step_9_publish_github env cfg).1 = true
      ∧ executedCmds (step_9_publish_github env cfg).2 = [])
    ∧ ((prep_release env cfg).1 = true
      ∧ executedCmds (prep_release env cfg).2 = [])
    ∧ ((build_release env cfg).1 = true
      ∧ executedCmds (build_release env cfg).2 = [])
    ∧ ((publish_release env cfg).1 = true
      ∧ executedCmds (publish_release env cfg).2 = [])
    ∧ ((run_all env cfg).1 = true
      ∧ executedCmds (run_all env cfg).2 = []) := by
  obtain ⟨v, rp, d⟩ := cfg
  simp only [Config.dryRun] at h
  subst h
  exact ⟨⟨rfl, rfl⟩, ⟨rfl, rfl⟩, ⟨rfl, rfl⟩, ⟨rfl, rfl⟩, ⟨rfl, rfl⟩, ⟨rfl, rfl⟩,
    ⟨rfl, rfl⟩, ⟨rfl, rfl⟩, ⟨rfl, rfl⟩, ⟨rfl, rfl⟩, ⟨rfl, rfl⟩, ⟨rfl, rfl⟩, ⟨rfl, rfl⟩⟩

/-- Witness for C2 at a concrete dry-run configuration. -/
theorem c2_witness :
    (run_all envOk cfgDry).1 = true ∧ executedCmds (run_all envOk cfgDry).2 = [] :=
  (c2_dryrun_no_exec envOk cfgDry "msg" rfl).2.2.2.2.2.2.2.2.2.2.2.2

/-- C3: within a phase, steps run strictly in listed order and the first
failing step stops execution: with every step before it succeeding and the
step failing, the sequencer produces the same result as if the subsequent
steps were not there at all (they are never invoked), and the phase reports
failure. Across phases under all, a failing prep phase leaves the run with
only the prep trace, and a failing build phase (after a successful prep)
leaves only the prep and build traces: the later phases never run. -/
theorem c3_phase_halts_on_first_failure :
    (∀ (failLabel : String) (i total : Nat)
      (pre post : List ((Unit → Bool × List Event) × String))
      (f : Unit → Bool × List Event) (name : String),
      (∀ s ∈ pre, (s.1 ()).1 = true) → (f ()).1 = false →
      runPhaseSteps failLabel i total (pre ++ (f, name) :: post)
          = runPhaseSteps failLabel i total (pre ++ [(f, name)])
        ∧ (runPhaseSteps failLabel i total (pre ++ (f, name) :: post)).1 = false)
    ∧ (∀ (env : Env) (cfg : Config),
      ((prep_release env cfg).1 = false →
        run_all env cfg = (false,
          Event.info ("FULL RELEASE AUTOMATION: v" ++ cfg.version)
            :: (prep_release env cfg).2))
      ∧ ((prep_release env cfg).1 = true → (build_release env cfg).1 = false →
        run_all env cfg = (false,
          Event.info ("FULL RELEASE AUTOMATION: v" ++ cfg.version)
            :: (prep_release env cfg).2 ++ (build_release env cfg).2))) := by
  constructor
  · intro failLabel i total pre post f name hpre hf
    revert hpre
    induction pre generalizing i with
    | nil =>
        intro hpre
        simp [runPhaseSteps, hf]
    | cons s rest ih =>
        intro hpre
        obtain ⟨sf, sname⟩ := s
        have hs : (sf ()).1 = true := hpre (sf, sname) (List.mem_cons_self _ _)
        have hrest : ∀ t ∈ rest, (t.1 ()).1 = true :=
          fun t ht => hpre t (List.mem_cons_of_mem _ ht)
        obtain ⟨ih1, ih2⟩ := ih (i + 1) hrest
        constructor
        · simp [runPhaseSteps, hs, ih1]
        · simp [runPhaseSteps, hs, ih2]
  · intro env cfg
    constructor
    · intro hfailP
      simp [run_all, hfailP]
    · intro hokP hfailB
      simp [run_all, hokP, hfailB]

/-- Witness for C3: a concrete failing middle step, and a concrete world in
which the prep phase fails and the full run stops after it. -/
theorem c3_witness :
    (runPhaseSteps "FAILED at: " 1 3 ([stepPass] ++ (stepFailFn, "boom") :: [stepPass])
        = runPhaseSteps "FAILED at: " 1 3 ([stepPass] ++ [(stepFailFn, "boom")])
      ∧ (runPhaseSteps "FAILED at: " 1 3
          ([stepPass] ++ (stepFailFn, "boom") :: [stepPass])).1 = false)
    ∧ run_all envFail cfgWet
        = (false, Event.info ("FULL RELEASE AUTOMATION: v" ++ cfgWet.version)
            :: (prep_release envFail cfgWet).2) :=
  ⟨c3_phase_halts_on_first_failure.1 "FAILED at: " 1 3 [stepPass] [stepPass] stepFailFn
      "boom" (by intro s hs; rw [List.mem_singleton] at hs; subst hs; rfl) rfl,
   (c3_phase_halts_on_first_failure.2 envFail cfgWet).1 (by decide)⟩

/-- C4: outside dry-run mode, each commit step first runs the porcelain status
query; when that query succeeds with output that strips to empty, the step
returns success having executed only the query (no stage, commit or push);
when the stripped output is nonempty, the step additionally executes the
combined stage-commit-push command and returns its success. -/
theorem c4_commit_steps_skip_or_proceed (env : Env) (cfg : Config)
    (message out3 err3 out5 err5 : String) (h : cfg.dryRun = false)
    (h3 : env.outcome (Cmd.gitStatusPorcelain "") = CmdOutcome.completed 0 out3 err3)
    (h5 : env.outcome (Cmd.gitStatusPorcelain "CHANGELOG.md")
      = CmdOutcome.completed 0 out5 err5) :
    ((pyStrip out3 = "" → step_3_commit_changes env cfg message
        = (true, [Event.header "STEP 3: Commit Version Changes",
                  Event.executed "Check for uncommitted changes" (Cmd.gitStatusPorcelain ""),
                  Event.info "No changes to commit, skipping"]))
      ∧ (pyStrip out3 ≠ "" → step_3_commit_changes env cfg message
          = (outcomeSuccess (env.outcome (Cmd.gitAddCommitPush message)),
             [Event.header "STEP 3: Commit Version Changes",
              Event.executed "Check for uncommitted changes" (Cmd.gitStatusPorcelain ""),
              Event.executed "Commit and push version changes"
                (Cmd.gitAddCommitPush message)])))
    ∧ ((pyStrip out5 = "" → step_5_commit_changelog env cfg
        = (true, [Event.header "STEP 5: Commit CHANGELOG.md",
                  Event.executed "Check for CHANGELOG.md changes"
                    (Cmd.gitStatusPorcelain "CHANGELOG.md"),
                  Event.info "No changes to CHANGELOG.md, skipping"]))
      ∧ (pyStrip out5 ≠ "" → step_5_commit_changelog env cfg
          = (outcomeSuccess (env.outcome Cmd.gitAddCommitPushChangelog),
             [Event.header "STEP 5: Commit CHANGELOG.md",
              Event.executed "Check for CHANGELOG.md changes"
                (Cmd.gitStatusPorcelain "CHANGELOG.md"),
              Event.executed "Commit and push CHANGELOG.md"
                Cmd.gitAddCommitPushChangelog]))) := by
  have hrc := run_command_not_dry env cfg h
  refine ⟨⟨?_, ?_⟩, ?_, ?_⟩
  · intro hstrip
    simp [step_3_commit_changes, hrc, h3, outcomeSuccess, cmdOutput, hstrip]
  · intro hstrip
    simp [step_3_commit_changes, hrc, h3, outcomeSuccess, cmdOutput, hstrip]
  · intro hstrip
    simp [step_5_commit_changelog, hrc, h5, outcomeSuccess, cmdOutput, hstrip]
  · intro hstrip
    simp [step_5_commit_changelog, hrc, h5, outcomeSuccess, cmdOutput, hstrip]

/-- Witness for C4: a clean working tree makes step 3 skip after the query,
and a pending change makes step 5 proceed to the commit command. -/
theorem c4_witness :
    step_3_commit_changes envOk cfgWet "chore: bump version to v1.2.3"
      = (true, [Event.header "STEP 3: Commit Version Changes",
                Event.executed "Check for uncommitted changes" (Cmd.gitStatusPorcelain ""),
                Event.info "No changes to commit, skipping"])
    ∧ step_5_commit_changelog envDirty cfgWet
      = (outcomeSuccess (envDirty.outcome Cmd.gitAddCommitPushChangelog),
         [Event.header "STEP 5: Commit CHANGELOG.md",
          Event.executed "Check for CHANGELOG.md changes"
            (Cmd.gitStatusPorcelain "CHANGELOG.md"),
          Event.executed "Commit and push CHANGELOG.md" Cmd.gitAddCommitPushChangelog]) :=
  ⟨(c4_commit_steps_skip_or_proceed envOk cfgWet "chore: bump version to v1.2.3"
      "" "" "" "" rfl rfl rfl).1.1 (by decide),
   (c4_commit_steps_skip_or_proceed envDirty cfgWet "m"
      " M file\n" "" " M file\n" "" rfl rfl rfl).2.2 (by decide)⟩

/-- When every zip command succeeds outside dry-run, the compression loop
succeeds and executes exactly one zip command per platform, in order. -/
theorem compressLoop_all_ok (env : Env) (cfg : Config) (h : cfg.dryRun = false)
    (l : List String)
    (hok : ∀ p ∈ l, outcomeSuccess (env.outcome (Cmd.zipPlatform
        (cfg.repoPath ++ "/target/" ++ p ++ "/release") (platform_extension p)
        (binary_file_name cfg p) (zip_file_name cfg p))) = true) :
    compressLoop env cfg l
      = (true, l.map (fun p => Event.executed ("Create " ++ zip_file_name cfg p)
          (Cmd.zipPlatform (cfg.repoPath ++ "/target/" ++ p ++ "/release")
            (platform_extension p) (binary_file_name cfg p) (zip_file_name cfg p)))) := by
  induction l with
  | nil => rfl
  | cons p rest ih =>
      have hp := hok p (List.mem_cons_self _ _)
      have ihr := ih (fun q hq => hok q (List.mem_cons_of_mem _ hq))
      simp [compressLoop, run_command_not_dry env cfg h, hp, ihr]

/-- A trace whose events carry no informational print has empty infoMsgs. -/
theorem infoMsgs_eq_nil (l : List Event) (hl : ∀ e ∈ l, infoOf e = none) :
    infoMsgs l = [] := by
  induction l with
  | nil => rfl
  | cons e rest ih =>
      have he := hl e (List.mem_cons_self _ _)
      have ihr := ih (fun x hx => hl x (List.mem_cons_of_mem _ hx))
      calc infoMsgs (e :: rest) = infoMsgs rest := by
            unfold infoMsgs
            rw [List.filterMap_cons, he]
        _ = [] := ihr

/-- A trace of informational prints alone lists exactly its messages. -/
theorem infoMsgs_map_info (l : List String) :
    infoMsgs (l.map Event.info) = l := by
  induction l with
  | nil => rfl
  | cons p rest ih => simpa [infoMsgs, infoOf] using ih

/-- infoMsgs distributes over trace concatenation. -/
theorem infoMsgs_append (a b : List Event) :
    infoMsgs (a ++ b) = infoMsgs a ++ infoMsgs b := by
  simp [infoMsgs, List.filterMap_append]

/-- C5: outside dry-run mode, once the per-platform zip commands have all
succeeded, step 8 succeeds exactly when every configured platform has its
archive present at the deterministic path, and on failure the informational
prints list precisely the missing archive paths; the archive path is the
release directory of the platform joined with the name
adaptive_pipeline-v(version)-(display name).zip. -/
theorem c5_compress_verifies_all_archives (env : Env) (cfg : Config)
    (h : cfg.dryRun = false)
    (hok : ∀ p ∈ PLATFORMS, outcomeSuccess (env.outcome (Cmd.zipPlatform
        (cfg.repoPath ++ "/target/" ++ p ++ "/release") (platform_extension p)
        (binary_file_name cfg p) (zip_file_name cfg p))) = true) :
    ((step_8_compress_binaries env cfg).1 = true ↔
        ∀ p ∈ PLATFORMS, env.fileExists (get_zip_path cfg p) = true)
    ∧ infoMsgs (step_8_compress_binaries env cfg).2
        = (PLATFORMS.filter (fun p => !env.fileExists (get_zip_path cfg p))).map
            (fun p => get_zip_path cfg p)
    ∧ (∀ p, get_zip_path cfg p
        = cfg.repoPath ++ "/target/" ++ p ++ "/release/" ++ zip_file_name cfg p
      ∧ zip_file_name cfg p
        = "adaptive_pipeline-v" ++ cfg.version ++ "-" ++ platform_to_name p ++ ".zip") := by
  have hloop := compressLoop_all_ok env cfg h PLATFORMS hok
  have hkey : (PLATFORMS.filter (fun p => !env.fileExists (get_zip_path cfg p)) = [])
      ↔ (∀ p ∈ PLATFORMS, env.fileExists (get_zip_path cfg p) = true) := by
    rw [List.filter_eq_nil_iff]
    constructor
    · intro hm p hp
      have := hm p hp
      simpa using this
    · intro hall a ha
      simp [hall a ha]
  have hnoinfo : infoMsgs (Event.header "STEP 8: Compress Binaries"
      :: PLATFORMS.map (fun p => Event.executed ("Create " ++ zip_file_name cfg p)
        (Cmd.zipPlatform (cfg.repoPath ++ "/target/" ++ p ++ "/release")
          (platform_extension p) (binary_file_name cfg p) (zip_file_name cfg p)))) = [] := by
    apply infoMsgs_eq_nil
    intro e he
    rcases List.mem_cons.mp he with h1 | h2
    · subst h1; rfl
    · obtain ⟨p, hp, rfl⟩ := List.mem_map.mp h2
      rfl
  refine ⟨?_, ?_, fun p => ⟨rfl, rfl⟩⟩
  · rw [step_8_compress_binaries, hloop]
    by_cases hm : PLATFORMS.filter (fun p => !env.fileExists (get_zip_path cfg p)) = []
    · have hall := hkey.mp hm
      simp [h, hm]
      exact hall
    · have hnall : ¬∀ p ∈ PLATFORMS, env.fileExists (get_zip_path cfg p) = true :=
        fun hall => hm (hkey.mpr hall)
      have hne : (PLATFORMS.filter (fun p => !env.fileExists (get_zip_path cfg p))).map
          (fun p => get_zip_path cfg p) ≠ [] := by
        simpa [List.map_eq_nil_iff] using hm
      simp [h, List.isEmpty_iff, hne, hnall]
  · rw [step_8_compress_binaries, hloop]
    by_cases hm : PLATFORMS.filter (fun p => !env.fileExists (get_zip_path cfg p)) = []
    · simp [h, hm, hnoinfo]
    · have hne : (PLATFORMS.filter (fun p => !env.fileExists (get_zip_path cfg p))).map
          (fun p => get_zip_path cfg p) ≠ [] := by
        simpa [List.map_eq_nil_iff] using hm
      simp only [h, Bool.not_true, Bool.false_eq_true, if_false, List.isEmpty_iff]
      rw [if_neg hne, infoMsgs_append, infoMsgs_map_info, hnoinfo, List.nil_append]

/-- Witness for C5 at a concrete world where every file exists: the step
succeeds and lists no missing archives. -/
theorem c5_witness :
    ((step_8_compress_binaries envOk cfgWet).1 = true ↔
        ∀ p ∈ PLATFORMS, envOk.fileExists (get_zip_path cfgWet p) = true)
    ∧ infoMsgs (step_8_compress_binaries envOk cfgWet).2
        = (PLATFORMS.filter (fun p => !envOk.fileExists (get_zip_path cfgWet p))).map
            (fun p => get_zip_path cfgWet p) := by
  have := c5_compress_verifies_all_archives envOk cfgWet rfl (by decide)
  exact ⟨this.1, this.2.1⟩

/-- C6: the command line requires at least one phase flag (omitting all four
is a usage error), and when validation succeeds the exit code is 0 exactly
when every requested phase reports success and 1 otherwise. -/
theorem c6_cli_flags_and_exit_code (env : Env) (args : Args) :
    ((args.prep || args.build || args.publish || args.all) = false →
      main env args = MainResult.usageError)
    ∧ (∀ cfg, (args.prep || args.build || args.publish || args.all) = true →
      mkAutomation env args.version args.repopath args.dryRun = InitResult.ok cfg →
      ∃ trace, main env args
        = MainResult.finished (if requestedSuccess env args cfg then 0 else 1) trace) := by
  constructor
  · intro hnone
    simp [main, hnone]
  · intro cfg hflag hmk
    by_cases hall : args.all = true
    · refine ⟨(run_all env cfg).2, ?_⟩
      simp [main, hflag, hmk, hall, requestedSuccess]
    · have hall' : args.all = false := by
        cases h : args.all
        · rfl
        · exact absurd h hall
      refine ⟨(if args.prep then prep_release env cfg else (true, [])).2
        ++ (if args.build then build_release env cfg else (true, [])).2
        ++ (if args.publish then publish_release env cfg else (true, [])).2, ?_⟩
      cases hp : args.prep <;> cases hb : args.build <;> cases hpub : args.publish <;>
        simp_all [main, requestedSuccess]

/-- Witness for C6: no flag at all is a usage error, and an all-phases dry
run finishes with the exit code derived from the requested success. -/
theorem c6_witness :
    main envOk argsNoFlags = MainResult.usageError
    ∧ ∃ trace, main envOk argsAllDry
        = MainResult.finished
            (if requestedSuccess envOk argsAllDry cfgDry then 0 else 1) trace :=
  ⟨(c6_cli_flags_and_exit_code envOk argsNoFlags).1 (by decide),
   (c6_cli_flags_and_exit_code envOk argsAllDry).2 cfgDry (by decide) (by decide)⟩

/-- C7: invoking all phases in dry-run mode with version 1.2.3 and a valid
repository path prints, in order, the nine step banners (prepare environment,
set version, commit, changelog, commit changelog, tag, build, compress,
publish), executes no external command, and exits with code 0. -/
theorem c7_dryrun_all_end_to_end (env : Env) (r : String)
    (h1 : env.fileExists r = true) (h2 : env.fileExists (joinPath r ".git") = true) :
    ∃ trace, main env ⟨"1.2.3", r, false, false, false, true, true⟩
        = MainResult.finished 0 trace
      ∧ executedCmds trace = []
      ∧ headerMsgs trace =
        ["STEP 1: Prepare Environment",
         "STEP 2: Set Version to v1.2.3",
         "STEP 3: Commit Version Changes",
         "STEP 4: Update CHANGELOG.md",
         "STEP 5: Commit CHANGELOG.md",
         "STEP 6: Create Git Tag v1.2.3",
         "STEP 7: Build Multi-Platform Binaries",
         "STEP 8: Compress Binaries",
         "STEP 9: Publish to GitHub"] := by
  have hv : validVersion "1.2.3" = true := by decide
  have hmk : mkAutomation env "1.2.3" r true = InitResult.ok ⟨"1.2.3", r, true⟩ := by
    simp [mkAutomation, hv, h1, h2]
  have hr : (run_all env ⟨"1.2.3", r, true⟩).1 = true := rfl
  refine ⟨(run_all env ⟨"1.2.3", r, true⟩).2, ?_, rfl, rfl⟩
  simp [main, hmk, hr]

/-- Witness for C7 at a concrete world where every path exists. -/
theorem c7_witness :
    ∃ trace, main envOk ⟨"1.2.3", "/repo", false, false, false, true, true⟩
        = MainResult.finished 0 trace
      ∧ executedCmds trace = []
      ∧ headerMsgs trace =
        ["STEP 1: Prepare Environment",
         "STEP 2: Set Version to v1.2.3",
         "STEP 3: Commit Version Changes",
         "STEP 4: Update CHANGELOG.md",
         "STEP 5: Commit CHANGELOG.md",
         "STEP 6: Create Git Tag v1.2.3",
         "STEP 7: Build Multi-Platform Binaries",
         "STEP 8: Compress Binaries",
         "STEP 9: Publish to GitHub"] :=
  c7_dryrun_all_end_to_end envOk "/repo" rfl rfl

/-- C8: when the all flag is given, the individual phase flags are ignored:
the run is identical to one with only the all flag given, and when validation
succeeds the produced trace is exactly one full all-phases run, so no phase
runs a second time. -/
theorem c8_all_flag_ignores_phase_flags (env : Env) (args : Args)
    (hall : args.all = true) :
    main env args
      = main env ⟨args.version, args.repopath, false, false, false, true, args.dryRun⟩
    ∧ ∀ cfg, mkAutomation env args.version args.repopath args.dryRun = InitResult.ok cfg →
      main env args
        = MainResult.finished (if (run_all env cfg).1 then 0 else 1) (run_all env cfg).2 := by
  constructor
  · simp [main, hall]
  · intro cfg hmk
    simp [main, hall, hmk]

/-- Witness for C8: all flag plus every individual flag equals all alone. -/
theorem c8_witness :
    main envOk argsAllPlus
      = main envOk ⟨"1.2.3", "/repo", false, false, false, true, false⟩ :=
  (c8_all_flag_ignores_phase_flags envOk argsAllPlus rfl).1

/-- C9: with the three individual phase flags and no all flag, every phase
runs in the fixed order prep, build, publish even when the prep phase fails:
the trace still contains the build and publish traces after the prep trace,
and the failure only makes the exit code 1. -/
theorem c9_phases_run_despite_failure (env : Env) (args : Args) (cfg : Config)
    (hall : args.all = false) (hp : args.prep = true) (hb : args.build = true)
    (hpub : args.publish = true)
    (hmk : mkAutomation env args.version args.repopath args.dryRun = InitResult.ok cfg)
    (hfailP : (prep_release env cfg).1 = false) :
    main env args = MainResult.finished 1
      ((prep_release env cfg).2 ++ (build_release env cfg).2
        ++ (publish_release env cfg).2) := by
  simp [main, hall, hp, hb, hpub, hmk, hfailP]

/-- Witness for C9 at a concrete world where every command fails: the prep
phase fails, yet the build and publish traces follow and the exit code is 1. -/
theorem c9_witness :
    main envFail argsThreePhases = MainResult.finished 1
      ((prep_release envFail cfgWet).2 ++ (build_release envFail cfgWet).2
        ++ (publish_release envFail cfgWet).2) :=
  c9_phases_run_despite_failure envFail argsThreePhases cfgWet rfl rfl rfl rfl
    (by decide) (by decide)

end Release
